import Mathlib

/-!
# AcortadorURL: the browser controller `static/script.js`

A shallow embedding of the script: JavaScript strings are sequences of UTF-16
code units, parsed JSON bodies are values of `JsVal`, the page is a record of
the three DOM regions the script touches together with the ordered list of
observable effects (network requests, dialogs, console output), and the
answers of the outside world (server, user, clipboard) are arguments of the
handlers.  The markup assigned to `innerHTML` is kept as the assigned string;
the HTML parser of the browser is not part of the development.
-/

namespace AcortadorURL

/-! ## Strings -/

/-- A JavaScript string: its UTF-16 code units. -/
abbrev JsString := List Nat

/-- UTF-16 code units of one Unicode scalar value. -/
def utf16Char (c : Char) : List Nat :=
  if c.toNat < 0x10000 then [c.toNat]
  else [0xD800 + (c.toNat - 0x10000) / 0x400, 0xDC00 + (c.toNat - 0x10000) % 0x400]

/-- The JavaScript string denoted by a literal of the script. -/
def utf16 (s : String) : JsString :=
  s.toList.flatMap utf16Char

/-- WhiteSpace and LineTerminator code points of ECMAScript, the ones
`String.prototype.trim` strips. -/
def isWhiteSpace (c : Nat) : Bool :=
  c = 0x09 || c = 0x0A || c = 0x0B || c = 0x0C || c = 0x0D || c = 0x20 || c = 0xA0 ||
  c = 0x1680 || (0x2000 ≤ c && c ≤ 0x200A) || c = 0x2028 || c = 0x2029 ||
  c = 0x202F || c = 0x205F || c = 0x3000 || c = 0xFEFF

/-- The built-in `String.prototype.trim`. -/
def trim (s : JsString) : JsString :=
  ((s.dropWhile isWhiteSpace).reverse.dropWhile isWhiteSpace).reverse

/-- The built-in `String.prototype.split` with a separator of one code unit. -/
def splitAt1 (sep : Nat) : JsString → List JsString
  | [] => [[]]
  | c :: cs =>
    if c = sep then [] :: splitAt1 sep cs
    else
      match splitAt1 sep cs with
      | [] => [[c]]
      | piece :: rest => (c :: piece) :: rest

/-! ## Values -/

/-- A JavaScript number: a finite double is the rational it denotes (the two
zeros are identified, no operation of the script tells them apart). -/
inductive JsNum where
  | nan
  | posInf
  | negInf
  | fin (q : ℚ)

/-- The values the script handles: `undefined` and what `JSON.parse` yields. -/
inductive JsVal where
  | undefined
  | null
  | bool (b : Bool)
  | num (n : JsNum)
  | str (s : JsString)
  | arr (items : List JsVal)
  | obj (props : List (JsString × JsVal))

/-- The exceptions the evaluation of the script itself raises. -/
inductive Fault where
  /-- ReferenceError: the identifier is bound in no enclosing scope. -/
  | unresolved (ident : String)
  /-- TypeError: a property is read from `undefined` or `null`. -/
  | nullishRead (property : String)
  /-- TypeError: the value of a property is called and is not a function. -/
  | notCallable (property : String)

/-- A thrown value: raised by the engine, or the reason with which the host
rejected a promise (`fetch`, `response.json()`, `clipboard.writeText`). -/
inductive JsError where
  | fault (f : Fault)
  | host (message : JsString)

/-- Built-ins of the JavaScript engine that the script relies on and that are
fixed by the engine, not by the script. -/
structure Engine where
  /-- The operation `Number::toString`. -/
  numberToString : JsNum → JsString
  /-- The operation `StringToNumber`. -/
  stringToNumber : JsString → JsNum
  /-- The `message` the engine gives the errors it raises. -/
  faultMessage : Fault → JsString

/-- The property `error.message` of a thrown value. -/
def JsError.message (eng : Engine) : JsError → JsString
  | .fault f => eng.faultMessage f
  | .host m => m

mutual
/-- The conversion `ToString`. -/
def JsVal.toJsString (eng : Engine) : JsVal → JsString
  | .undefined => utf16 "undefined"
  | .null => utf16 "null"
  | .bool true => utf16 "true"
  | .bool false => utf16 "false"
  | .num n => eng.numberToString n
  | .str s => s
  | .arr items => joinComma eng items
  | .obj _ => utf16 "[object Object]"
/-- The built-in `Array.prototype.join` with the default separator: `null` and `undefined`
elements contribute the empty string. -/
def joinComma (eng : Engine) : List JsVal → JsString
  | [] => []
  | [.undefined] => []
  | [.null] => []
  | [v] => JsVal.toJsString eng v
  | .undefined :: rest => utf16 "," ++ joinComma eng rest
  | .null :: rest => utf16 "," ++ joinComma eng rest
  | v :: rest => JsVal.toJsString eng v ++ utf16 "," ++ joinComma eng rest
end

/-- Strict equality `v === n` with a number literal `n`. -/
def JsVal.strictEqNat : JsVal → Nat → Bool
  | .num (.fin q), n => decide (q = (n : ℚ))
  | _, _ => false

/-- The conversion `ToBoolean`. -/
def JsVal.truthy : JsVal → Bool
  | .undefined => false
  | .null => false
  | .bool b => b
  | .num .nan => false
  | .num (.fin q) => decide (q ≠ 0)
  | .num _ => true
  | .str s => !s.isEmpty
  | .arr _ => true
  | .obj _ => true

/-- The conversion `ToNumber`; an array or object is first converted to a
string. -/
def JsVal.toNumber (eng : Engine) : JsVal → JsNum
  | .undefined => .nan
  | .null => .fin 0
  | .bool true => .fin 1
  | .bool false => .fin 0
  | .num n => n
  | .str s => eng.stringToNumber s
  | v => eng.stringToNumber (v.toJsString eng)

/-- The comparison `v > n` with a number `n`. -/
def JsVal.gtNat (eng : Engine) (v : JsVal) (n : Nat) : Bool :=
  match v.toNumber eng with
  | .fin q => decide ((n : ℚ) < q)
  | .posInf => true
  | _ => false

/-- Property read `v.name`, for the data properties the script reads
(`length`, `original`, `short`, `original_url`, `short_url`, `error`): none of
them is inherited from a built-in ancestor object, `length` is an own property of strings
and arrays. -/
def JsVal.get (v : JsVal) (name : String) : Except JsError JsVal :=
  match v with
  | .undefined => .error (.fault (.nullishRead name))
  | .null => .error (.fault (.nullishRead name))
  | .str s => .ok (if name = "length" then .num (.fin (s.length : ℚ)) else .undefined)
  | .arr items => .ok (if name = "length" then .num (.fin (items.length : ℚ)) else .undefined)
  | .obj props => .ok ((props.lookup (utf16 name)).getD .undefined)
  | _ => .ok .undefined

/-! ## The functions of the script -/

/-- The function `truncateText(text, maxLength)`, line 77:
`text.length > maxLength ? text.substring(0, maxLength) + ... : text`.
Only a string has a `substring` method. -/
def truncateText (eng : Engine) (text : JsVal) (maxLength : Nat) : Except JsError JsVal :=
  match text.get "length" with
  | .error err => .error err
  | .ok len =>
    if len.gtNat eng maxLength then
      match text with
      | .str s => .ok (.str (s.take maxLength ++ utf16 "..."))
      | _ => .error (.fault (.notCallable "substring"))
    else .ok text

/-! ## The page and the outside world -/

/-- HTTP methods of the three requests. -/
inductive Method where
  | GET
  | POST
  | DELETE

/-- The arguments of a call of `fetch`; `body` is the value handed to
`JSON.stringify`. -/
structure Request where
  method : Method
  url : JsString
  headers : List (String × String)
  body : Option JsVal

/-- What the script does that is visible outside it, in the order it happens. -/
inductive Effect where
  | preventDefault
  | fetch (req : Request)
  | confirm (message : JsString)
  | alert (message : JsString)
  | consoleError (label : JsString) (err : JsError)
  | clipboardWrite (text : JsString)
  | appendTextarea (value : JsString)
  | selectTextarea
  | execCopy
  | removeTextarea

/-- The DOM surface the script works on: the value of `#urlInput`, the markup
last assigned to `#result` and to `#urlHistory`, and the effects so far. -/
structure Page where
  urlInput : JsString
  result : JsString
  urlHistory : JsString
  log : List Effect

/-- Record one effect. -/
def Page.emit (p : Page) (e : Effect) : Page :=
  { p with log := p.log ++ [e] }

/-- The requests among a list of effects. -/
def requestsOf : List Effect → List Request
  | [] => []
  | .fetch req :: rest => req :: requestsOf rest
  | _ :: rest => requestsOf rest

/-- The alerts among a list of effects. -/
def alertsOf : List Effect → List JsString
  | [] => []
  | .alert m :: rest => m :: alertsOf rest
  | _ :: rest => alertsOf rest

/-- How a call of `fetch` ends: the promise rejects, or a response arrives
with a status and a body that `response.json()` parses or rejects. -/
inductive FetchOutcome where
  | rejected (err : JsError)
  | response (status : Nat) (json : Except JsError JsVal)

/-- The property `Response.ok`: the status is in the range 200 to 299. -/
def isOk (status : Nat) : Bool :=
  200 ≤ status && status ≤ 299

/-- The request of lines 17 to 23, for the trimmed input `urlInput`. -/
def createRequest (urlInput : JsString) : Request :=
  ⟨.POST, utf16 "/api/shorten", [("Content-Type", "application/json")],
    some (.obj [(utf16 "url", .str urlInput)])⟩

/-- The request of line 53. -/
def listRequest : Request :=
  ⟨.GET, utf16 "/api/urls", [], none⟩

/-- The request of lines 106 to 108. -/
def deleteRequest (shortCode : JsString) : Request :=
  ⟨.DELETE, utf16 "/api/urls/" ++ shortCode, [], none⟩

/-! ## `loadUrlHistory` -/

/-- The callback of `urls.map`, lines 62 to 70: the markup of one entry. -/
def historyItem (eng : Engine) (url : JsVal) : Except JsError JsString := do
  let href ← url.get "original"
  let original ← url.get "original"
  let shown ← truncateText eng original 40
  let short1 ← url.get "short"
  let short2 ← url.get "short"
  let short3 ← url.get "short"
  pure (utf16 "\n            <li>\n                <div class=\"url-entry\">\n                    <p><strong>Original:</strong> <a href=\""
    ++ href.toJsString eng
    ++ utf16 "\" target=\"_blank\">"
    ++ shown.toJsString eng
    ++ utf16 "</a></p>\n                    <p><strong>Acortada:</strong> <a href=\""
    ++ short1.toJsString eng
    ++ utf16 "\" target=\"_blank\">"
    ++ short2.toJsString eng
    ++ utf16 "</a></p>\n                    <button onclick=\"copyToClipboard(\x27"
    ++ short3.toJsString eng
    ++ utf16 "\x27)\">Copiar</button>\n                </div>\n            </li>\n        ")

/-- Lines 57 to 70: the markup assigned to `historyList.innerHTML` for the
parsed body `urls`.  `urls.length === 0` gives the placeholder; otherwise
`urls.map(...)` joined with the empty separator, and only an array has a
`map` method. -/
def historyMarkup (eng : Engine) (urls : JsVal) : Except JsError JsString := do
  let len ← urls.get "length"
  if len.strictEqNat 0 then
    pure (utf16 "<li>No hay URLs acortadas aún</li>")
  else
    match urls with
    | .arr items => do
      let rendered ← items.mapM (historyItem eng)
      pure rendered.flatten
    | _ => throw (.fault (.notCallable "map"))

/-- The `try` block of `loadUrlHistory`, lines 53 to 70: the page it leaves
and the error it throws, if any. -/
def loadUrlHistoryTry (eng : Engine) (list : FetchOutcome) (p : Page) : Page × Option JsError :=
  let p := p.emit (.fetch listRequest)
  match list with
  | .rejected err => (p, some err)
  | .response _ (.error err) => (p, some err)
  | .response _ (.ok urls) =>
    match historyMarkup eng urls with
    | .error err => (p, some err)
    | .ok html => ({ p with urlHistory := html }, none)

/-- The function `loadUrlHistory()`, lines 51 to 74; `list` is how its
request ends. -/
def loadUrlHistory (eng : Engine) (list : FetchOutcome) (p : Page) : Page :=
  match loadUrlHistoryTry eng list p with
  | (q, none) => q
  | (q, some err) => q.emit (.consoleError (utf16 "Error cargando historial:") err)

/-! ## The submit handler -/

/-- The last substitution of the success template, line 33:
`url.short`, split on the slash, last piece.  The script declares no `url` in the
scope of the handler; `globalUrl` is the binding of that name in the global
scope of the page, if there is one. -/
def deleteArgument (globalUrl : Option JsVal) : Except JsError JsVal := do
  let url ← match globalUrl with
    | none => throw (.fault (.unresolved "url"))
    | some v => pure v
  let short ← url.get "short"
  match short with
  | .str s =>
    match (splitAt1 47 s).getLast? with
    | some piece => pure (.str piece)
    | none => pure .undefined
  | .undefined => throw (.fault (.nullishRead "split"))
  | .null => throw (.fault (.nullishRead "split"))
  | _ => throw (.fault (.notCallable "split"))

/-- The template of lines 29 to 34, its substitutions evaluated left to right. -/
def successMarkup (eng : Engine) (globalUrl : Option JsVal) (data : JsVal) :
    Except JsError JsString := do
  let href ← data.get "original_url"
  let original ← data.get "original_url"
  let shown ← truncateText eng original 50
  let short1 ← data.get "short_url"
  let short2 ← data.get "short_url"
  let short3 ← data.get "short_url"
  let code ← deleteArgument globalUrl
  pure (utf16 "\n                    <p><strong>URL original:</strong> <a href=\""
    ++ href.toJsString eng
    ++ utf16 "\" target=\"_blank\">"
    ++ shown.toJsString eng
    ++ utf16 "</a></p>\n                    <p><strong>URL acortada:</strong> <a href=\""
    ++ short1.toJsString eng
    ++ utf16 "\" target=\"_blank\">"
    ++ short2.toJsString eng
    ++ utf16 "</a></p>\n                    <button onclick=\"copyToClipboard(\x27"
    ++ short3.toJsString eng
    ++ utf16 "\x27)\">Copiar</button>\n                    <button class=\"delete-btn\" onclick=\"deleteUrl(\x27"
    ++ code.toJsString eng
    ++ utf16 "\x27)\">Eliminar</button>\n                ")

/-- The template of line 42: `data.error`, or the text `Error desconocido`
when that is falsy. -/
def errorMarkup (eng : Engine) (data : JsVal) : Except JsError JsString := do
  let err ← data.get "error"
  let shown := if err.truthy then err else .str (utf16 "Error desconocido")
  pure (utf16 "<p style=\"color: red;\">Error: " ++ shown.toJsString eng ++ utf16 "</p>")

/-- The `try` block of the submit handler, lines 17 to 43, for the trimmed
input `urlInput`: the page it leaves and the error it throws, if any. -/
def submitTry (eng : Engine) (globalUrl : Option JsVal) (create list : FetchOutcome)
    (urlInput : JsString) (p : Page) : Page × Option JsError :=
  let p := p.emit (.fetch (createRequest urlInput))
  match create with
  | .rejected err => (p, some err)
  | .response _ (.error err) => (p, some err)
  | .response status (.ok data) =>
    if isOk status then
      match successMarkup eng globalUrl data with
      | .error err => (p, some err)
      | .ok html =>
        let p := { p with result := html }
        let p := loadUrlHistory eng list p
        ({ p with urlInput := [] }, none)
    else
      match errorMarkup eng data with
      | .error err => (p, some err)
      | .ok html => ({ p with result := html }, none)

/-- The submit handler of `#shortenForm`, lines 6 to 47.  `create` is how the
request to `/api/shorten` ends and `list` how the request of the history
reload ends, each used only if the request is made. -/
def submitHandler (eng : Engine) (globalUrl : Option JsVal) (create list : FetchOutcome)
    (p : Page) : Page :=
  let p := p.emit .preventDefault
  let urlInput := trim p.urlInput
  if urlInput.isEmpty then
    { p with result := utf16 "<p style=\"color: red;\">Por favor ingresa una URL</p>" }
  else
    match submitTry eng globalUrl create list urlInput p with
    | (q, none) => q
    | (q, some err) =>
      { q with result := utf16 "<p style=\"color: red;\">Error de conexión: "
          ++ err.message eng ++ utf16 "</p>" }

/-! ## `deleteUrl` and `copyToClipboard` -/

/-- The `try` block of `deleteUrl`, lines 106 to 116.  The history reload of
line 112 is not awaited; it cannot throw, and nothing follows it. -/
def deleteTry (eng : Engine) (del list : FetchOutcome) (shortCode : JsString) (p : Page) :
    Page × Option JsError :=
  let p := p.emit (.fetch (deleteRequest shortCode))
  match del with
  | .rejected err => (p, some err)
  | .response status json =>
    if isOk status then
      let p := p.emit (.alert (utf16 "URL eliminada correctamente"))
      (loadUrlHistory eng list p, none)
    else
      match json with
      | .error err => (p, some err)
      | .ok errorData =>
        match errorData.get "error" with
        | .error err => (p, some err)
        | .ok e => (p.emit (.alert (utf16 "Error al eliminar: " ++ e.toJsString eng)), none)

/-- The function `deleteUrl(shortCode)`, lines 100 to 121.  `answer` is what the user
answers to the confirmation, `del` how the DELETE request ends and `list`
how the request of the history reload ends. -/
def deleteUrl (eng : Engine) (answer : Bool) (del list : FetchOutcome) (shortCode : JsString)
    (p : Page) : Page :=
  let p := p.emit (.confirm (utf16 "¿Estás seguro de que quieres eliminar esta URL?"))
  if !answer then p
  else
    match deleteTry eng del list shortCode p with
    | (q, none) => q
    | (q, some err) =>
      (q.emit (.consoleError (utf16 "Error eliminando URL:") err)).emit
        (.alert (utf16 "Error al conectar con el servidor"))

/-- The clipboard of the environment: `navigator.clipboard` is undefined, or
`writeText` returns a promise that resolves or rejects. -/
inductive Clipboard where
  | missing
  | resolves
  | rejects (err : JsError)

/-- The function `copyToClipboard(text)`, lines 82 to 98: the page it leaves and the error
the call throws, if any.  The result of `document.execCommand` is not read by
the script. -/
def copyToClipboard (clipboard : Clipboard) (text : JsString) (p : Page) :
    Page × Option JsError :=
  match clipboard with
  | .missing => (p, some (.fault (.nullishRead "writeText")))
  | .resolves =>
    (((p.emit (.clipboardWrite text)).emit (.alert (utf16 "URL copiada: " ++ text))), none)
  | .rejects err =>
    (((((((p.emit (.clipboardWrite text)).emit
      (.consoleError (utf16 "Error al copiar:") err)).emit
      (.appendTextarea text)).emit
      .selectTextarea).emit
      .execCopy).emit
      .removeTextarea).emit
      (.alert (utf16 "URL copiada!")), none)

/-! ## Values used in closed examples -/

/-- A stand-in engine for closed examples: integers are written in decimal,
digit strings are read as integers, and errors are worded after V8.  The
closed examples below convert no number and read no message from it. -/
def sampleEngine : Engine where
  numberToString := fun n =>
    match n with
    | .nan => utf16 "NaN"
    | .posInf => utf16 "Infinity"
    | .negInf => utf16 "-Infinity"
    | .fin q => utf16 (toString (q.num / (q.den : Int)))
  stringToNumber := fun s =>
    if s.all (fun c => 48 ≤ c && c ≤ 57) then
      .fin ((s.foldl (fun acc c => 10 * acc + (c - 48)) 0 : Nat) : ℚ)
    else .nan
  faultMessage := fun f =>
    match f with
    | .unresolved ident => utf16 (ident ++ " is not defined")
    | .nullishRead property =>
      utf16 ("Cannot read properties of undefined (reading \x27" ++ property ++ "\x27)")
    | .notCallable property => utf16 (property ++ " is not a function")

/-- A page with a typed address, an empty result region and one stale entry
in the history list. -/
def samplePage : Page where
  urlInput := utf16 " http://ex.com/long "
  result := []
  urlHistory := utf16 "<li>stale</li>"
  log := []

theorem requestsOf_append (xs ys : List Effect) :
    requestsOf (xs ++ ys) = requestsOf xs ++ requestsOf ys := by
  induction xs with
  | nil => rfl
  | cons x xs ih => cases x <;> simp [requestsOf, ih]

theorem alertsOf_append (xs ys : List Effect) :
    alertsOf (xs ++ ys) = alertsOf xs ++ alertsOf ys := by
  induction xs with
  | nil => rfl
  | cons x xs ih => cases x <;> simp [alertsOf, ih]

theorem trim_of_all_whiteSpace (s : JsString) (h : ∀ c ∈ s, isWhiteSpace c = true) :
    trim s = [] := by
  have h1 : s.dropWhile isWhiteSpace = [] := List.dropWhile_eq_nil_iff.mpr h
  simp [trim, h1]

theorem get_length_str (s : JsString) :
    JsVal.get (.str s) "length" = .ok (.num (.fin (s.length : ℚ))) := by
  simp [JsVal.get]

theorem gtNat_length (eng : Engine) (n m : Nat) :
    JsVal.gtNat eng (.num (.fin (n : ℚ))) m = decide (m < n) := by
  simp [JsVal.gtNat, JsVal.toNumber]

/-- The result of `truncateText` on a string, in closed form. -/
theorem truncateText_str (eng : Engine) (text : JsString) (maxLength : Nat) :
    truncateText eng (.str text) maxLength
      = .ok (.str (if text.length ≤ maxLength then text
                   else text.take maxLength ++ utf16 "...")) := by
  unfold truncateText
  rw [get_length_str]
  simp only [gtNat_length]
  by_cases h : text.length ≤ maxLength
  · have : ¬ maxLength < text.length := Nat.not_lt.mpr h
    simp [h, this]
  · have : maxLength < text.length := Nat.lt_of_not_le h
    simp [h, this]

/-! ## Claims -/

/-- C7. For every string `text` and every length `maxLength`,
`truncateText(text, maxLength)` returns `text` unchanged when
`text.length <= maxLength`, equality included, and otherwise the first
`maxLength` code units of `text` followed by three dots; in particular
`truncateText("0123456789", 5)` is `"01234..."`, `truncateText("ab", 5)`
is `"ab"` and `truncateText("01234", 5)` is `"01234"`. -/
theorem truncateText_spec (eng : Engine) (text : JsString) (maxLength : Nat) :
    truncateText eng (.str text) maxLength
      = .ok (.str (if text.length ≤ maxLength then text
                   else text.take maxLength ++ utf16 "..."))
    ∧ truncateText eng (.str (utf16 "0123456789")) 5 = .ok (.str (utf16 "01234..."))
    ∧ truncateText eng (.str (utf16 "ab")) 5 = .ok (.str (utf16 "ab"))
    ∧ truncateText eng (.str (utf16 "01234")) 5 = .ok (.str (utf16 "01234")) :=
  ⟨truncateText_str eng text maxLength, rfl, rfl, rfl⟩

/-- C2. For every input that is empty or consists only of white space, the
submit handler sets the result region to the validation message
`Por favor ingresa una URL` and issues no network request: the only effect
it adds is `preventDefault`, and the input and the history are untouched. -/
theorem submit_blank_input (eng : Engine) (globalUrl : Option JsVal)
    (create list : FetchOutcome) (p : Page)
    (h : ∀ c ∈ p.urlInput, isWhiteSpace c = true) :
    submitHandler eng globalUrl create list p
      = { urlInput := p.urlInput,
          result := utf16 "<p style=\"color: red;\">Por favor ingresa una URL</p>",
          urlHistory := p.urlHistory,
          log := p.log ++ [Effect.preventDefault] }
    ∧ requestsOf (submitHandler eng globalUrl create list p).log = requestsOf p.log := by
  have ht : trim p.urlInput = [] := trim_of_all_whiteSpace _ h
  have hq : submitHandler eng globalUrl create list p
      = { urlInput := p.urlInput,
          result := utf16 "<p style=\"color: red;\">Por favor ingresa una URL</p>",
          urlHistory := p.urlHistory,
          log := p.log ++ [Effect.preventDefault] } := by
    simp [submitHandler, Page.emit, ht]
  refine ⟨hq, ?_⟩
  rw [hq]
  simp [requestsOf_append, requestsOf]

/-- C2 at the input of two blanks, a tab and a line feed. -/
theorem submit_blank_input_witness :
    submitHandler sampleEngine none (.rejected (.host [])) (.rejected (.host []))
        ⟨utf16 "  \t\n", [], utf16 "<li>stale</li>", []⟩
      = { urlInput := utf16 "  \t\n",
          result := utf16 "<p style=\"color: red;\">Por favor ingresa una URL</p>",
          urlHistory := utf16 "<li>stale</li>",
          log := [] ++ [Effect.preventDefault] }
    ∧ requestsOf (submitHandler sampleEngine none (.rejected (.host []))
        (.rejected (.host [])) ⟨utf16 "  \t\n", [], utf16 "<li>stale</li>", []⟩).log
      = requestsOf [] :=
  submit_blank_input sampleEngine none (.rejected (.host [])) (.rejected (.host []))
    ⟨utf16 "  \t\n", [], utf16 "<li>stale</li>", []⟩ (by decide)

/-- Without a global binding of `url`, the success template throws before
any markup is produced, whatever the body of the response. -/
theorem successMarkup_unbound (eng : Engine) (data : JsVal) :
    ∃ err, successMarkup eng none data = .error err := by
  unfold successMarkup
  cases h1 : data.get "original_url" with
  | error e => exact ⟨e, rfl⟩
  | ok v1 =>
    cases h2 : truncateText eng v1 50 with
    | error e => exact ⟨e, by simp [bind, Except.bind, h2]⟩
    | ok v2 =>
      cases h3 : data.get "short_url" with
      | error e => exact ⟨e, by simp [bind, Except.bind, h2]⟩
      | ok v3 =>
        exact ⟨.fault (.unresolved "url"), by
          simp [bind, Except.bind, h2, deleteArgument, throw, throwThe, MonadExceptOf.throw]⟩

/-- Without a global binding of `url`, no response with a status in 200 to
299 reaches the success rendering: whatever its body, the handler ends in
its `catch`, keeps the input and sends no list request. -/
theorem submit_ok_unbound (eng : Engine) (list : FetchOutcome) (p : Page) (status : Nat)
    (data : JsVal) (hin : trim p.urlInput ≠ []) (hst : 200 ≤ status ∧ status ≤ 299) :
    ∃ err : JsError, submitHandler eng none (.response status (.ok data)) list p
      = { urlInput := p.urlInput,
          result := utf16 "<p style=\"color: red;\">Error de conexión: "
            ++ err.message eng ++ utf16 "</p>",
          urlHistory := p.urlHistory,
          log := p.log ++ [Effect.preventDefault,
                           Effect.fetch (createRequest (trim p.urlInput))] } := by
  have hok : isOk status = true := by
    simp [isOk, hst.1, hst.2]
  have hemp : (trim p.urlInput).isEmpty = false := by
    cases h : trim p.urlInput with
    | nil => exact absurd h hin
    | cons c cs => rfl
  obtain ⟨err, herr⟩ := successMarkup_unbound eng data
  exact ⟨err, by simp [submitHandler, submitTry, Page.emit, hemp, hok, herr]⟩

set_option maxRecDepth 100000 in
/-- With a global `url` whose `short` is a string, the same response is
rendered as the handler intends: both addresses and both buttons in the
result region, the history reloaded, the input cleared. -/
theorem submit_success_bound :
    submitHandler sampleEngine (some (.obj [(utf16 "short", .str (utf16 "http://sh.rt/abc"))]))
        (.response 200 (.ok (.obj [(utf16 "original_url", .str (utf16 "http://ex.com/long")),
                                   (utf16 "short_url", .str (utf16 "http://sh.rt/abc"))])))
        (.response 200 (.ok (.arr []))) ⟨utf16 "http://ex.com/long", [], utf16 "<li>stale</li>", []⟩
      = { urlInput := [],
          result := utf16 "\n                    <p><strong>URL original:</strong> <a href=\"http://ex.com/long\" target=\"_blank\">http://ex.com/long</a></p>\n                    <p><strong>URL acortada:</strong> <a href=\"http://sh.rt/abc\" target=\"_blank\">http://sh.rt/abc</a></p>\n                    <button onclick=\"copyToClipboard(\x27http://sh.rt/abc\x27)\">Copiar</button>\n                    <button class=\"delete-btn\" onclick=\"deleteUrl(\x27abc\x27)\">Eliminar</button>\n                ",
          urlHistory := utf16 "<li>No hay URLs acortadas aún</li>",
          log := [Effect.preventDefault,
                  Effect.fetch (createRequest (utf16 "http://ex.com/long")),
                  Effect.fetch listRequest] } := by
  rfl

/-- C1, on the code. At the input `http://ex.com/long` and the create
response 200 with body `original_url: http://ex.com/long`,
`short_url: http://sh.rt/abc`, on a page whose global scope binds no `url`:
evaluating the success template throws at its last substitution
(`url.short...`, line 33), so the handler ends in its `catch`: the result
region holds the connection-error paragraph with the message of the
ReferenceError, not the two addresses; the input field keeps its value; the
only request is the create request, so no history reload is triggered. -/
theorem submit_success_throws (eng : Engine) (list : FetchOutcome) :
    submitHandler eng none
        (.response 200 (.ok (.obj [(utf16 "original_url", .str (utf16 "http://ex.com/long")),
                                   (utf16 "short_url", .str (utf16 "http://sh.rt/abc"))])))
        list ⟨utf16 "http://ex.com/long", [], utf16 "<li>stale</li>", []⟩
      = { urlInput := utf16 "http://ex.com/long",
          result := utf16 "<p style=\"color: red;\">Error de conexión: "
            ++ eng.faultMessage (.unresolved "url") ++ utf16 "</p>",
          urlHistory := utf16 "<li>stale</li>",
          log := [Effect.preventDefault,
                  Effect.fetch (createRequest (utf16 "http://ex.com/long"))] } := by
  rfl

/-- C5 as stated fails. For the empty array the history region is set to
`<li>No hay URLs acortadas aún</li>`: it holds the placeholder text, and it
does hold a list item, the one that wraps the placeholder. -/
theorem loadUrlHistory_empty_counterexample :
    ¬ (utf16 "No hay URLs acortadas aún"
          <:+: (loadUrlHistory sampleEngine (.response 200 (.ok (.arr []))) samplePage).urlHistory
        ∧ ¬ (utf16 "<li>"
          <:+: (loadUrlHistory sampleEngine (.response 200 (.ok (.arr []))) samplePage).urlHistory)) := by
  intro h
  exact h.2 ⟨[], utf16 "No hay URLs acortadas aún</li>", by decide⟩

/-- C5, amended. When the list endpoint returns an empty array,
`loadUrlHistory` sets the history region to exactly one list item, whose
content is the placeholder text `No hay URLs acortadas aún`, and renders no
entry for any record; nothing else on the page changes and the only effect
is the list request. -/
theorem loadUrlHistory_empty (eng : Engine) (status : Nat) (p : Page) :
    loadUrlHistory eng (.response status (.ok (.arr []))) p
      = { urlInput := p.urlInput,
          result := p.result,
          urlHistory := utf16 "<li>" ++ utf16 "No hay URLs acortadas aún" ++ utf16 "</li>",
          log := p.log ++ [Effect.fetch listRequest] } := by
  rfl

/-- Every run of `loadUrlHistory` sends exactly one request, the list request. -/
theorem requestsOf_loadUrlHistory (eng : Engine) (list : FetchOutcome) (p : Page) :
    requestsOf (loadUrlHistory eng list p).log = requestsOf p.log ++ [listRequest] := by
  unfold loadUrlHistory loadUrlHistoryTry
  cases list with
  | rejected err => simp [Page.emit, requestsOf_append, requestsOf]
  | response status json =>
    cases json with
    | error err => simp [Page.emit, requestsOf_append, requestsOf]
    | ok urls =>
      cases h : historyMarkup eng urls with
      | error err => simp [h, Page.emit, requestsOf_append, requestsOf]
      | ok html => simp [h, Page.emit, requestsOf_append, requestsOf]

/-- C6. For every short code: when the user declines the confirmation,
`deleteUrl` only shows the confirmation, so it sends no request, shows no
alert and reloads nothing; when the user confirms and the delete response
has a status in 200 to 299, `deleteUrl` sends the DELETE request to
`/api/urls/` followed by the short code, alerts, and then runs
`loadUrlHistory` exactly once, so the requests it adds are that DELETE
request followed by one list request. -/
theorem deleteUrl_confirmation (eng : Engine) (del list : FetchOutcome)
    (shortCode : JsString) (p : Page) (status : Nat) (json : Except JsError JsVal)
    (hst : 200 ≤ status ∧ status ≤ 299) :
    (deleteUrl eng false del list shortCode p
        = p.emit (.confirm (utf16 "¿Estás seguro de que quieres eliminar esta URL?"))
      ∧ requestsOf (deleteUrl eng false del list shortCode p).log = requestsOf p.log
      ∧ alertsOf (deleteUrl eng false del list shortCode p).log = alertsOf p.log)
    ∧ (deleteUrl eng true (.response status json) list shortCode p
        = loadUrlHistory eng list
            (((p.emit (.confirm (utf16 "¿Estás seguro de que quieres eliminar esta URL?"))).emit
              (.fetch (deleteRequest shortCode))).emit
              (.alert (utf16 "URL eliminada correctamente")))
      ∧ requestsOf (deleteUrl eng true (.response status json) list shortCode p).log
        = requestsOf p.log
          ++ [⟨.DELETE, utf16 "/api/urls/" ++ shortCode, [], none⟩,
              ⟨.GET, utf16 "/api/urls", [], none⟩]) := by
  have hok : isOk status = true := by
    simp [isOk, hst.1, hst.2]
  have h1 : deleteUrl eng false del list shortCode p
      = p.emit (.confirm (utf16 "¿Estás seguro de que quieres eliminar esta URL?")) := by
    simp [deleteUrl]
  have h2 : deleteUrl eng true (.response status json) list shortCode p
      = loadUrlHistory eng list
          (((p.emit (.confirm (utf16 "¿Estás seguro de que quieres eliminar esta URL?"))).emit
            (.fetch (deleteRequest shortCode))).emit
            (.alert (utf16 "URL eliminada correctamente"))) := by
    simp [deleteUrl, deleteTry, hok]
  refine ⟨⟨h1, ?_, ?_⟩, h2, ?_⟩
  · rw [h1]; simp [Page.emit, requestsOf_append, requestsOf]
  · rw [h1]; simp [Page.emit, alertsOf_append, alertsOf]
  · rw [h2, requestsOf_loadUrlHistory]
    simp [Page.emit, requestsOf_append, requestsOf, deleteRequest, listRequest]

/-- C6 at the short code `abc`, the delete status 204 and an empty list. -/
theorem deleteUrl_confirmation_witness :
    requestsOf (deleteUrl sampleEngine false (.response 204 (.error (.host [])))
        (.response 200 (.ok (.arr []))) (utf16 "abc") samplePage).log = requestsOf samplePage.log
    ∧ requestsOf (deleteUrl sampleEngine true (.response 204 (.error (.host [])))
        (.response 200 (.ok (.arr []))) (utf16 "abc") samplePage).log
      = requestsOf samplePage.log
        ++ [⟨.DELETE, utf16 "/api/urls/" ++ utf16 "abc", [], none⟩,
            ⟨.GET, utf16 "/api/urls", [], none⟩] :=
  ⟨(deleteUrl_confirmation sampleEngine (.response 204 (.error (.host [])))
      (.response 200 (.ok (.arr []))) (utf16 "abc") samplePage 204 (.error (.host []))
      (by decide)).1.2.1,
   (deleteUrl_confirmation sampleEngine (.response 204 (.error (.host [])))
      (.response 200 (.ok (.arr []))) (utf16 "abc") samplePage 204 (.error (.host []))
      (by decide)).2.2⟩

/-- C8, on the code. At the status 500 with the body `{}`, which has no
`error` field: the create path shows the generic text `Error desconocido`
(`data.error || ...`, line 42), while the delete path, which has no such
alternative (line 115), alerts `Error al eliminar: undefined`, the text of
the missing field. -/
theorem api_error_without_error_field (eng : Engine) (list : FetchOutcome) :
    (submitHandler eng none (.response 500 (.ok (.obj []))) list samplePage).result
      = utf16 "<p style=\"color: red;\">Error: Error desconocido</p>"
    ∧ deleteUrl eng true (.response 500 (.ok (.obj []))) list (utf16 "abc") samplePage
      = { urlInput := samplePage.urlInput,
          result := samplePage.result,
          urlHistory := samplePage.urlHistory,
          log := [Effect.confirm (utf16 "¿Estás seguro de que quieres eliminar esta URL?"),
                  Effect.fetch (deleteRequest (utf16 "abc")),
                  Effect.alert (utf16 "Error al eliminar: undefined")] } := by
  exact ⟨rfl, rfl⟩

/-- C10, on the code. Where `navigator.clipboard` is undefined, the call
`navigator.clipboard.writeText(text)` of line 83 throws a TypeError before
any promise exists: `copyToClipboard` ends by throwing, with no fallback
copy and no alert.  Where `writeText` resolves it alerts directly, and where
it rejects it logs, copies through a textarea that is appended and removed,
and alerts. -/
theorem copyToClipboard_outcomes (text : JsString) (p : Page) (err : JsError) :
    copyToClipboard .missing text p = (p, some (.fault (.nullishRead "writeText")))
    ∧ alertsOf (copyToClipboard .missing text p).1.log = alertsOf p.log
    ∧ (copyToClipboard .resolves text p).2 = none
    ∧ (copyToClipboard .resolves text p).1.log
      = p.log ++ [Effect.clipboardWrite text, Effect.alert (utf16 "URL copiada: " ++ text)]
    ∧ (copyToClipboard (.rejects err) text p).2 = none
    ∧ (copyToClipboard (.rejects err) text p).1.log
      = p.log ++ [Effect.clipboardWrite text,
                  Effect.consoleError (utf16 "Error al copiar:") err,
                  Effect.appendTextarea text, Effect.selectTextarea, Effect.execCopy,
                  Effect.removeTextarea, Effect.alert (utf16 "URL copiada!")] := by
  refine ⟨rfl, rfl, rfl, ?_, rfl, ?_⟩
  · simp [copyToClipboard, Page.emit]
  · simp [copyToClipboard, Page.emit]

end AcortadorURL
